import Mathlib

/-
  Verification development for the FVE valuation agent (fve_agent.py).

  The numeric core of the agent is embedded shallowly over the rationals:
  every Python float value is modelled as an exact rational number, so the
  arithmetic sequences of the source (grow-then-discount loops, terminal
  value, rounding) are reproduced exactly.  External collaborators (the
  text-generation capability) are modelled as oracles: a run receives the
  outcome of each call as an explicit argument.  Failure reasons, which the
  source keeps as formatted strings, are modelled as structured error values
  together with renderers producing the exact message text of the source.
-/

deriving instance DecidableEq for Except

namespace FVE

/-! ### Python-style rounding and number formatting -/

/-- Round-half-to-even on rationals, mirroring the tie-breaking of the
Python builtin round. -/
def roundHalfEven (x : ℚ) : ℤ :=
  let f := ⌊x⌋
  let r := x - (f : ℚ)
  if r < 1/2 then f
  else if (1 : ℚ)/2 < r then f + 1
  else if f % 2 = 0 then f else f + 1

/-- Python round(x, 2): round to two decimal places, ties to even. -/
def pyRound2 (x : ℚ) : ℚ := (roundHalfEven (x * 100) : ℚ) / 100

/-- Left-pad a decimal string with zeros up to the given width. -/
def padZeros (d : Nat) (s : String) : String :=
  String.mk (List.replicate (d - s.length) '0') ++ s

/-- Fixed-point rendering  of a rational with the given number of decimal
places, mirroring Python percent-f formatting (round half to even). -/
def fmtFixed (prec : Nat) (x : ℚ) : String :=
  let n := roundHalfEven (x * (10 : ℚ) ^ prec)
  let sign := if n < 0 ∨ (n = 0 ∧ x < 0) then "-" else ""
  let m := n.natAbs
  sign ++ toString (m / 10 ^ prec) ++ "." ++ padZeros prec (toString (m % 10 ^ prec))

/-- Two-decimal rendering, as in the .2f format specifiers of the source. -/
def fmt2 (x : ℚ) : String := fmtFixed 2 x

/-- Best-effort rendering of a rational where the source interpolates a raw
Python number into a message (plain str of the value).  Integers render
without a fractional part; other rationals render as fractions. -/
def ratPyStr (q : ℚ) : String :=
  if q.den = 1 then toString q.num else toString q.num ++ "/" ++ toString q.den

/-! ### Input facts

A scalar entry of the input dictionary (fve_input_data) is null, a number,
or a string.  A string carries an optional numeric reading: Python float(s)
succeeds exactly on numeric literals, which the reading models. -/

inductive Fact where
  | none
  | num (q : ℚ)
  | str (s : String) (asNum : Option ℚ)
deriving DecidableEq

/-- Python truthiness of an input fact: None, 0 and the empty string are
falsy. -/
def Fact.truthy : Fact → Bool
  | .none => false
  | .num q => q ≠ 0
  | .str s _ => s ≠ ""

/-- Python float(x) on a fact: fails (None) on null and on strings without
a numeric reading. -/
def Fact.toFloat : Fact → Option ℚ
  | .none => Option.none
  | .num q => Option.some q
  | .str _ a => a

/-- Python str(x) as interpolated into messages. -/
def Fact.display : Fact → String
  | .none => "None"
  | .num q => ratPyStr q
  | .str s _ => s

/-- The message of the exception raised by a failing float(x) conversion. -/
def Fact.floatErrMsg : Fact → String
  | .none => "float() argument must be a string or a real number, not \x27NoneType\x27"
  | .num _ => ""
  | .str s _ => "could not convert string to float: \x27" ++ s ++ "\x27"

/-! ### JSON values parsed from a text-generation response -/

inductive JVal where
  | jnull
  | jnum (q : ℚ)
  | jstr (s : String) (asNum : Option ℚ)
  | jlist (l : List JVal)

/-- Python isinstance(v, (int, float)). -/
def JVal.isNumber : JVal → Bool
  | .jnum _ => true
  | _ => false

/-- Python float(v) on a parsed JSON value. -/
def JVal.toFloat : JVal → Option ℚ
  | .jnum q => Option.some q
  | .jstr _ a => a
  | _ => Option.none

/-- Exception message of a failing float(v) conversion. -/
def JVal.floatErrMsg : JVal → String
  | .jnull => "float() argument must be a string or a real number, not \x27NoneType\x27"
  | .jnum _ => ""
  | .jstr s _ => "could not convert string to float: \x27" ++ s ++ "\x27"
  | .jlist _ => "float() argument must be a string or a real number, not \x27list\x27"

mutual
/-- Best-effort Python repr of a parsed JSON value (integers render without
a fractional part). -/
def JVal.pyRepr : JVal → String
  | .jnull => "None"
  | .jnum q => ratPyStr q
  | .jstr s _ => "\x27" ++ s ++ "\x27"
  | .jlist l => "[" ++ JVal.pyReprList l ++ "]"

/-- Comma-separated rendering of a list of JSON values. -/
def JVal.pyReprList : List JVal → String
  | [] => ""
  | [x] => JVal.pyRepr x
  | x :: y :: xs => JVal.pyRepr x ++ ", " ++ JVal.pyReprList (y :: xs)
end

/-! ### The input data model -/

/-- Historical financial series, index 0 = most recent year; missing years
are null entries.  Only the four series read by the base cash-flow
computation are modelled. -/
structure HistFin where
  netIncome : List (Option ℚ)
  capex : List (Option ℚ)
  depAmort : List (Option ℚ)
  deltaNWC : List (Option ℚ)
deriving DecidableEq

/-- The fve_input_data dictionary, restricted to the fields the valuation
logic reads (fields only interpolated into prompts are omitted, since the
text-generation capability is an oracle here). -/
structure FVEInput where
  companyName : Option String
  ticker : Option String
  beta : Fact
  sharesOutstanding : Fact
  hist : Option HistFin
  trailingPE : Option ℚ
  forwardPE : Option ℚ
  trailingEps : Option ℚ
  forwardEps : Option ℚ
deriving DecidableEq

/-- Constructor-time configuration of FVEAgent. -/
structure Config where
  rfr : ℚ
  erp : ℚ
  stage1Years : Nat
  minSpread : ℚ
deriving DecidableEq

/-- min_ke_g_spread_pct = min_ke_g_spread_decimal * 100. -/
def Config.minSpreadPct (c : Config) : ℚ := c.minSpread * 100

/-- MIN_KE_G_SPREAD_DEFAULT = 0.005. -/
def MIN_KE_G_SPREAD_DEFAULT : ℚ := 5 / 1000

/-! ### Base cash-flow computation (_calculate_base_fcfe_zero) -/

/-- dl[0] if dl and dl[0] is not None else None. -/
def getMostRecent (dl : List (Option ℚ)) : Option ℚ :=
  match dl with
  | [] => Option.none
  | a :: _ => a

inductive BaseCFError where
  | histMissing
  | missingInputs (names : List String)
deriving DecidableEq

def BaseCFError.msg : BaseCFError → String
  | .histMissing => "Historical financials data not available."
  | .missingInputs ns => "Missing critical FCFE_0 inputs: " ++ String.intercalate ", " ns ++ "."

/-- The names of the critical inputs that are null, in the iteration order
of the crit dictionary of the source: NI, Capex, D&A, NWC. -/
def missNames (ni capx da nwc : Option ℚ) : List String :=
  (if ni = Option.none then ["NI"] else []) ++
  (if capx = Option.none then ["Capex"] else []) ++
  (if da = Option.none then ["D&A"] else []) ++
  (if nwc = Option.none then ["NWC"] else [])

/-- _calculate_base_fcfe_zero: reads the most recent entry of each of the
four critical series; fails naming every null one; otherwise
FCFE_0 = NI - (abs(Capex) - D&A) - NWC.  (The TypeError branch of the
source cannot trigger once the four values are numbers.) -/
def calculateBaseFcfeZero (input : FVEInput) : Except BaseCFError ℚ :=
  match input.hist with
  | Option.none => Except.error BaseCFError.histMissing
  | Option.some h =>
    let ni := getMostRecent h.netIncome
    let capx := getMostRecent h.capex
    let da := getMostRecent h.depAmort
    let nwc := getMostRecent h.deltaNWC
    match ni, capx, da, nwc with
    | Option.some n, Option.some c, Option.some d, Option.some w =>
        Except.ok (n - (|c| - d) - w)
    | _, _, _, _ => Except.error (BaseCFError.missingInputs (missNames ni capx da nwc))

/-! ### DCF assumption generation (_generate_dcf_assumptions_with_llm) -/

def STAGE_1_GROWTH_PCT : String := "stage_1_fcfe_growth_rates_pct"
def JUSTIFICATION_STAGE_1_GROWTH : String := "justification_stage_1_growth"
def PERPETUAL_GROWTH_G_PCT : String := "perpetual_growth_rate_g_pct"
def JUSTIFICATION_PERPETUAL_GROWTH : String := "justification_perpetual_growth"
def COST_OF_EQUITY_KE_PCT : String := "cost_of_equity_ke_pct"
def JUSTIFICATION_KE : String := "justification_ke"
def BETA_USED_IN_KE_CALC : String := "beta_used_in_ke_calc"

/-- Required keys of the DCF JSON contract, in the order produced by
dir(DCFAssumptionKeys) (alphabetical by attribute name). -/
def requiredDCFKeys : List String :=
  [BETA_USED_IN_KE_CALC, COST_OF_EQUITY_KE_PCT, JUSTIFICATION_KE,
   JUSTIFICATION_PERPETUAL_GROWTH, JUSTIFICATION_STAGE_1_GROWTH,
   PERPETUAL_GROWTH_G_PCT, STAGE_1_GROWTH_PCT]

/-- Outcome of one call to the text-generation capability, at the level of
detail the agent observes: an exception, a falsy response, a response with
no extractable JSON, or an extracted JSON object (an association list of
keys to values, as returned by json.loads). -/
inductive LLMResult where
  | exn (e : String)
  | empty
  | noJson
  | json (obj : List (String × JVal))

/-- Validated DCF assumptions (the justification strings of the source are
carried through unvalidated and are omitted). -/
structure DCFAssumptions where
  s1gPct : List ℚ
  gPct : ℚ
  kePct : ℚ
  betaUsed : ℚ
deriving DecidableEq

inductive GenDCFError where
  | baseNotCalculated
  | betaMissing
  | betaInvalid (display : String)
  | llmCallFailed (e : String)
  | llmEmpty
  | jsonParseFailed
  | missingKeys (ks : List String)
  | shapeNotList (n : Nat) (raw : String)
  | shapeNonNumeric
  | parseNumericFailed (e : String)
  | keNotPositive (kePct : ℚ)
  | spreadViolation (gPct kePct spreadPct : ℚ)
deriving DecidableEq

def GenDCFError.msg : GenDCFError → String
  | .baseNotCalculated => "Base FCFE_0 not calculated."
  | .betaMissing => "Beta not available."
  | .betaInvalid d => "Invalid Beta value: " ++ d ++ ". Must be numeric."
  | .llmCallFailed e => "LLM call failed (DCF assumptions): " ++ e.take 100
  | .llmEmpty => "LLM returned empty response (DCF assumptions)."
  | .jsonParseFailed => "Failed to parse JSON from LLM response (DCF assumptions)."
  | .missingKeys ks => "LLM DCF response missing required keys: " ++ String.intercalate ", " ks
  | .shapeNotList n raw =>
      "\x27stage_1_fcfe_growth_rates_pct\x27 is not a list of " ++ toString n ++
      " items as requested. Got: " ++ raw
  | .shapeNonNumeric => "\x27stage_1_fcfe_growth_rates_pct\x27 contains non-numeric values."
  | .parseNumericFailed e =>
      "Error parsing numeric values or types from LLM DCF assumptions: " ++ e.take 100
  | .keNotPositive ke => "Cost of Equity (Ke=" ++ ratPyStr ke ++ "%) from LLM must be positive."
  | .spreadViolation g ke sp =>
      "Perpetual growth (" ++ fmt2 g ++ "%) must be less than Cost of Equity (" ++ fmt2 ke ++
      "%) by at least " ++ fmt2 sp ++ "%. Current spread: " ++ fmt2 (ke - g) ++ "%."

/-- The validation performed on the extracted JSON object (lines 96-111 of
the source): required keys, stage-1 list shape and numerals, numeric g and
Ke, positive Ke, and the g versus Ke spread in percent units. -/
def validateDCFJson (cfg : Config) (nb : ℚ) (pa : List (String × JVal)) :
    Except GenDCFError DCFAssumptions :=
  let missK := requiredDCFKeys.filter (fun k => (pa.lookup k).isNone)
  if missK ≠ [] then Except.error (GenDCFError.missingKeys missK)
  else
    match (pa.lookup STAGE_1_GROWTH_PCT).getD JVal.jnull with
    | JVal.jlist l =>
      if l.length ≠ cfg.stage1Years then
        Except.error (GenDCFError.shapeNotList cfg.stage1Years (JVal.jlist l).pyRepr)
      else if ¬ (l.all JVal.isNumber) then Except.error GenDCFError.shapeNonNumeric
      else
        let s1g := l.map (fun v => v.toFloat.getD 0)
        let gv := (pa.lookup PERPETUAL_GROWTH_G_PCT).getD JVal.jnull
        let kev := (pa.lookup COST_OF_EQUITY_KE_PCT).getD JVal.jnull
        match gv.toFloat with
        | Option.none => Except.error (GenDCFError.parseNumericFailed gv.floatErrMsg)
        | Option.some gPct =>
          match kev.toFloat with
          | Option.none => Except.error (GenDCFError.parseNumericFailed kev.floatErrMsg)
          | Option.some kePct =>
            if kePct ≤ 0 then Except.error (GenDCFError.keNotPositive kePct)
            else if gPct ≥ kePct - cfg.minSpreadPct then
              Except.error (GenDCFError.spreadViolation gPct kePct cfg.minSpreadPct)
            else Except.ok ⟨s1g, gPct, kePct, nb⟩
    | v => Except.error (GenDCFError.shapeNotList cfg.stage1Years v.pyRepr)

/-- _generate_dcf_assumptions_with_llm.  The Bool component records whether
the text-generation capability was invoked (the source builds and sends the
prompt only after the base cash flow and beta preconditions pass). -/
def generateDCFAssumptions (cfg : Config) (beta : Fact) (base? : Option ℚ)
    (resp : LLMResult) : Except GenDCFError DCFAssumptions × Bool :=
  match base? with
  | Option.none => (Except.error GenDCFError.baseNotCalculated, false)
  | Option.some _ =>
    match beta with
    | Fact.none => (Except.error GenDCFError.betaMissing, false)
    | b =>
      match b.toFloat with
      | Option.none => (Except.error (GenDCFError.betaInvalid b.display), false)
      | Option.some nb =>
        match resp with
        | LLMResult.exn e => (Except.error (GenDCFError.llmCallFailed e), true)
        | LLMResult.empty => (Except.error GenDCFError.llmEmpty, true)
        | LLMResult.noJson => (Except.error GenDCFError.jsonParseFailed, true)
        | LLMResult.json pa => (validateDCFJson cfg nb pa, true)

/-! ### DCF calculation (_perform_dcf_calculation) -/

inductive DCFError where
  | baseMissingForDCF
  | missingEssential
  | lengthMismatch (len n : Nat)
  | spreadFail (gD keD spread : ℚ)
  | invalidShares (display : String) (e : String)
  | degenerateTerminal (d : ℚ)
  | negativeResult (v : ℚ)
deriving DecidableEq

def DCFError.msg : DCFError → String
  | .baseMissingForDCF => "Base FCFE_0 not available for DCF calculation."
  | .missingEssential => "Missing essential DCF assumptions (Ke, g, Stage 1 growth)."
  | .lengthMismatch l n =>
      "Stage 1 growth rates list length (" ++ toString l ++
      ") mismatches configured stage1_years (" ++ toString n ++ ")."
  | .spreadFail gD keD sp =>
      "Perpetual growth (" ++ fmt2 (gD * 100) ++ "%) not less than Ke (" ++ fmt2 (keD * 100) ++
      "%) by min spread (" ++ fmt2 (sp * 100) ++ "%)."
  | .invalidShares d e =>
      "Shares outstanding (\x27" ++ d ++ "\x27) is invalid or not positive: " ++ e
  | .degenerateTerminal d =>
      "Terminal value denominator (Ke - g = " ++ fmtFixed 6 d ++ ") is not sufficiently positive."
  | .negativeResult v => "Calculated FVE per share is negative ($" ++ fmt2 v ++ ")."

/-- Recognizer for the DegenerateTerminalValue error branch. -/
def DCFError.isDegenerate : DCFError → Bool
  | .degenerateTerminal _ => true
  | _ => false

/-- The stage-1 loop of the source: starting from the running cash flow and
a 0-based loop counter, grow the cash flow by each rate in turn, discount
the grown cash flow by (1+Ke)^(counter+1), and return the summed present
values together with the final grown cash flow. -/
def stage1Go (ke : ℚ) : ℚ → Nat → List ℚ → ℚ × ℚ
  | cf, _, [] => (0, cf)
  | cf, i, r :: rs =>
    let cf2 := cf * (1 + r)
    let pv := cf2 / (1 + ke) ^ (i + 1)
    let rest := stage1Go ke cf2 (i + 1) rs
    (pv + rest.1, rest.2)

/-- _perform_dcf_calculation.  The assumptions arrive as the stored
dictionary entries: optional Ke and g (percent), and the stage-1 growth
list (percent); the guards run in source order.  The shares-outstanding
fact is converted with float() inside a try block whose exception message
feeds the failure reason. -/
def performDCFCalculation (cfg : Config) (so : Fact)
    (base? kePct? gPct? : Option ℚ) (s1gPct : List ℚ) : Except DCFError ℚ :=
  match base? with
  | Option.none => Except.error DCFError.baseMissingForDCF
  | Option.some base =>
    match kePct?, gPct? with
    | Option.some kePct, Option.some gPct =>
      if s1gPct = [] then Except.error DCFError.missingEssential
      else
        let keD := kePct / 100
        let gD := gPct / 100
        let s1gD := s1gPct.map (fun g => g / 100)
        if s1gD.length ≠ cfg.stage1Years then
          Except.error (DCFError.lengthMismatch s1gD.length cfg.stage1Years)
        else if gD ≥ keD - cfg.minSpread then
          Except.error (DCFError.spreadFail gD keD cfg.minSpread)
        else
          match so.toFloat with
          | Option.none => Except.error (DCFError.invalidShares so.display so.floatErrMsg)
          | Option.some soV =>
            if soV ≤ 0 then
              Except.error (DCFError.invalidShares so.display
                "Shares outstanding must be positive and greater than zero.")
            else
              let p := stage1Go keD base 0 s1gD
              let tvDenom := keD - gD
              if tvDenom ≤ 1 / 1000000000 then
                Except.error (DCFError.degenerateTerminal tvDenom)
              else
                let tv := p.2 * (1 + gD) / tvDenom
                let pvTv := tv / (1 + keD) ^ cfg.stage1Years
                let fvePs := (p.1 + pvTv) / soV
                if fvePs < 0 then Except.error (DCFError.negativeResult fvePs)
                else Except.ok (pyRound2 fvePs)
    | _, _ => Except.error DCFError.missingEssential

/-! ### Multiples assumption generation (_generate_multiples_assumptions_with_llm) -/

def SELECTED_PE_VALUE : String := "selected_pe_multiple_value"
def SELECTED_PE_TYPE : String := "selected_pe_multiple_type"
def JUSTIFICATION_PE : String := "justification_pe_multiple"
def SELECTED_EPS_VALUE : String := "selected_eps_value"
def SELECTED_EPS_TYPE : String := "selected_eps_type"
def JUSTIFICATION_EPS : String := "justification_eps_selection"

/-- Required keys of the multiples JSON contract, in dir() order. -/
def requiredMultiplesKeys : List String :=
  [JUSTIFICATION_EPS, JUSTIFICATION_PE, SELECTED_EPS_TYPE,
   SELECTED_EPS_VALUE, SELECTED_PE_TYPE, SELECTED_PE_VALUE]

inductive MultGenError where
  | insufficientData
  | llmCallFailed (e : String)
  | llmEmpty
  | jsonParseFailed
  | missingKeys (ks : List String)
  | parseNumericFailed (e : String)
  | indeterminateValues
deriving DecidableEq

def MultGenError.msg : MultGenError → String
  | .insufficientData => "Insufficient P/E or EPS data available to generate multiples assumptions."
  | .llmCallFailed e => "LLM call failed (Multiples assumptions): " ++ e.take 100
  | .llmEmpty => "LLM returned empty response (Multiples assumptions)."
  | .jsonParseFailed => "Failed to parse JSON from LLM response (Multiples assumptions)."
  | .missingKeys ks => "LLM Multiples response missing required keys: " ++ String.intercalate ", " ks
  | .parseNumericFailed e =>
      "Error parsing numeric values (P/E or EPS) from LLM Multiples assumptions: " ++ e.take 100
  | .indeterminateValues =>
      "LLM indicated that P/E value or EPS value for multiples valuation is not determinable or feasible."

/-- float(v) if v is not None else None, propagating the conversion
exception message. -/
def jToFloatOpt : JVal → Except String (Option ℚ)
  | JVal.jnull => Except.ok Option.none
  | v =>
    match v.toFloat with
    | Option.some q => Except.ok (Option.some q)
    | Option.none => Except.error v.floatErrMsg

/-- Validation of the extracted multiples JSON (lines 206-224 of the
source): required keys, float conversion of the selected values (nulls
pass through), then rejection when either selected value is null. -/
def validateMultiplesJson (pa : List (String × JVal)) : Except MultGenError (ℚ × ℚ) :=
  let missK := requiredMultiplesKeys.filter (fun k => (pa.lookup k).isNone)
  if missK ≠ [] then Except.error (MultGenError.missingKeys missK)
  else
    match jToFloatOpt ((pa.lookup SELECTED_PE_VALUE).getD JVal.jnull) with
    | Except.error e => Except.error (MultGenError.parseNumericFailed e)
    | Except.ok pe? =>
      match jToFloatOpt ((pa.lookup SELECTED_EPS_VALUE).getD JVal.jnull) with
      | Except.error e => Except.error (MultGenError.parseNumericFailed e)
      | Except.ok eps? =>
        match pe?, eps? with
        | Option.some pe, Option.some eps => Except.ok (pe, eps)
        | _, _ => Except.error MultGenError.indeterminateValues

/-- _generate_multiples_assumptions_with_llm.  The Bool component records
whether the text-generation capability was invoked (the P/E and EPS data
precondition is checked before the prompt is sent). -/
def generateMultiplesAssumptions (input : FVEInput) (resp : LLMResult) :
    Except MultGenError (ℚ × ℚ) × Bool :=
  if (input.trailingPE = Option.none ∧ input.forwardPE = Option.none) ∨
     (input.trailingEps = Option.none ∧ input.forwardEps = Option.none) then
    (Except.error MultGenError.insufficientData, false)
  else
    match resp with
    | LLMResult.exn e => (Except.error (MultGenError.llmCallFailed e), true)
    | LLMResult.empty => (Except.error MultGenError.llmEmpty, true)
    | LLMResult.noJson => (Except.error MultGenError.jsonParseFailed, true)
    | LLMResult.json pa => (validateMultiplesJson pa, true)

/-! ### Multiples calculation (_perform_multiples_calculation) -/

inductive MultCalcError where
  | peMissing
  | epsMissing
  | invalidMultiple (pe : ℚ)
  | nonPositiveResult (fve : ℚ)
deriving DecidableEq

def MultCalcError.msg : MultCalcError → String
  | .peMissing => "Selected P/E multiple value is missing from assumptions."
  | .epsMissing => "Selected EPS value is missing from assumptions."
  | .invalidMultiple pe => "Selected P/E multiple (" ++ fmt2 pe ++ ") must be positive for valuation."
  | .nonPositiveResult fve => "Calculated FVE from multiples ($" ++ fmt2 fve ++ ") is not positive."

/-- _perform_multiples_calculation.  (The float() re-conversion of the
stored values cannot fail once they are numbers, so its except branch is
unreachable here.) -/
def performMultiplesCalculation (pe? eps? : Option ℚ) : Except MultCalcError ℚ :=
  match pe? with
  | Option.none => Except.error MultCalcError.peMissing
  | Option.some pe =>
    match eps? with
    | Option.none => Except.error MultCalcError.epsMissing
    | Option.some eps =>
      if pe ≤ 0 then Except.error (MultCalcError.invalidMultiple pe)
      else
        let fve := pe * eps
        if fve ≤ 0 then Except.error (MultCalcError.nonPositiveResult fve)
        else Except.ok (pyRound2 fve)

/-! ### Orchestrator (run_valuation_process) -/

/-- The external text-generation calls a run can make, in order. -/
inductive CallKind where
  | dcfAssumptions
  | multAssumptions
  | methodology
deriving DecidableEq

/-- Outcome of the methodology narrative call: an exception, or the
returned text. -/
inductive MethResult where
  | exn (e : String)
  | text (s : String)

/-- The observable outcome of run_valuation_process: the fair value, the
method marker, the methodology text, the two retained failure-reason
strings, the sequence of text-generation calls made, and whether the
multiples fallback branch was entered. -/
structure RunResult where
  calculatedFve : Option ℚ
  methodUsed : Option String
  methodologyText : String
  dcfFailureReason : Option String
  multiplesFailureReason : Option String
  calls : List CallKind
  multiplesAttempted : Bool

/-- The preflight failure fragments of lines 303-310 of the source, in
order: beta missing / beta non-numeric, then shares outstanding falsy. -/
def preflightParts (input : FVEInput) : List String :=
  (match input.beta with
   | Fact.none => ["Beta missing"]
   | b =>
     match b.toFloat with
     | Option.none => ["Beta \x27" ++ b.display ++ "\x27 not numeric"]
     | Option.some _ => []) ++
  (if input.sharesOutstanding.truthy then [] else ["Shares Outstanding missing"])

/-- company_identifier plus optional ticker suffix, with the Python or /
and truthiness semantics of lines 299-301. -/
def companyDisplay (input : FVEInput) : String :=
  let cid :=
    match input.companyName with
    | Option.some s => if s = "" then (input.ticker.getD "The Company") else s
    | Option.none => input.ticker.getD "The Company"
  let tick :=
    match input.companyName, input.ticker with
    | Option.some cn, Option.some tk =>
        if cn ≠ "" ∧ tk ≠ "" then " (" ++ tk ++ ")" else ""
    | _, _ => ""
  cid ++ tick

/-- _generate_final_methodology_text_with_llm on the success path (method
set and not Failed): the pair is (returned True, resulting methodology
text). -/
def methodologyFromLLM (resp : MethResult) : Bool × String :=
  match resp with
  | MethResult.exn e =>
      (false, "VALUATION_METHODOLOGY:\nError generating methodology explanation: " ++ e.take 100)
  | MethResult.text s =>
      let t := s.trim
      if t = "" then (false, "VALUATION_METHODOLOGY:\nLLM explanation for methodology was empty.")
      else if t.toUpper.startsWith "VALUATION_METHODOLOGY:" then (true, t)
      else (true, "VALUATION_METHODOLOGY:\n" ++ t)

/-- The deterministic local fallback message of lines 326-338, composed
from the retained per-method failure reasons without any external call. -/
def totalFailureText (input : FVEInput) (dreason mreason : Option String) : String :=
  let cd := companyDisplay input
  match dreason, mreason with
  | Option.some dr, Option.some mr =>
      "VALUATION_METHODOLOGY:\nValuation for " ++ cd ++ " failed. " ++
      "DCF valuation could not be performed due to: " ++ dr ++ ". " ++
      "Multiples valuation could not be performed due to: " ++ mr ++ "."
  | Option.some dr, Option.none =>
      "VALUATION_METHODOLOGY:\nValuation for " ++ cd ++ " failed. " ++
      "DCF valuation could not be performed due to: " ++ dr ++ "."
  | Option.none, Option.some mr =>
      "VALUATION_METHODOLOGY:\nValuation for " ++ cd ++ " failed. " ++
      "Multiples valuation could not be performed due to: " ++ mr ++ "."
  | Option.none, Option.none =>
      "VALUATION_METHODOLOGY:\nValuation for " ++ cd ++
      " could not be completed due to unspecified reasons."

/-- The DCF arm of the run (lines 303-316): preflight, base cash flow,
assumption generation, calculation, short-circuiting on the first failure.
Returns (fair value on success, retained failure reason, whether the
text-generation capability was called for DCF assumptions). -/
def dcfPhase (cfg : Config) (input : FVEInput) (dcfResp : LLMResult) :
    Option ℚ × Option String × Bool :=
  let parts := preflightParts input
  if parts ≠ [] then
    (Option.none, Option.some (String.intercalate ", " parts ++ "."), false)
  else
    match calculateBaseFcfeZero input with
    | Except.error e => (Option.none, Option.some e.msg, false)
    | Except.ok base =>
      match generateDCFAssumptions cfg input.beta (Option.some base) dcfResp with
      | (Except.error e, called) => (Option.none, Option.some e.msg, called)
      | (Except.ok a, called) =>
        match performDCFCalculation cfg input.sharesOutstanding (Option.some base)
            (Option.some a.kePct) (Option.some a.gPct) a.s1gPct with
        | Except.error e => (Option.none, Option.some e.msg, called)
        | Except.ok v => (Option.some v, Option.none, called)

/-- The multiples arm of the run (lines 317-321).  (The not-None re-checks
of line 319-320 always hold after a successful generation, since
generation only succeeds with both values set.) -/
def multPhase (input : FVEInput) (multResp : LLMResult) :
    Option ℚ × Option String × Bool :=
  match generateMultiplesAssumptions input multResp with
  | (Except.error e, called) => (Option.none, Option.some e.msg, called)
  | (Except.ok (pe, eps), called) =>
    match performMultiplesCalculation (Option.some pe) (Option.some eps) with
    | Except.error e => (Option.none, Option.some e.msg, called)
    | Except.ok v => (Option.some v, Option.none, called)

/-- run_valuation_process: the DCF arm first; on any DCF failure the
multiples arm; on success of either arm the narrative call; on total
failure the locally composed fallback message and no narrative call. -/
def runValuation (cfg : Config) (input : FVEInput)
    (dcfResp multResp : LLMResult) (methResp : MethResult) : RunResult :=
  match dcfPhase cfg input dcfResp with
  | (Option.some v, _, dcalled) =>
    { calculatedFve := Option.some v
      methodUsed := Option.some "Two-Stage FCFE DCF"
      methodologyText := (methodologyFromLLM methResp).2
      dcfFailureReason := Option.none
      multiplesFailureReason := Option.none
      calls := (if dcalled then [CallKind.dcfAssumptions] else []) ++ [CallKind.methodology]
      multiplesAttempted := false }
  | (Option.none, dreason, dcalled) =>
    match multPhase input multResp with
    | (Option.some v, _, mcalled) =>
      { calculatedFve := Option.some v
        methodUsed := Option.some "P/E Multiples-Based"
        methodologyText := (methodologyFromLLM methResp).2
        dcfFailureReason := dreason
        multiplesFailureReason := Option.none
        calls := (if dcalled then [CallKind.dcfAssumptions] else []) ++
                 (if mcalled then [CallKind.multAssumptions] else []) ++ [CallKind.methodology]
        multiplesAttempted := true }
    | (Option.none, mreason, mcalled) =>
      { calculatedFve := Option.none
        methodUsed := Option.some "Valuation Failed"
        methodologyText := totalFailureText input dreason mreason
        dcfFailureReason := dreason
        multiplesFailureReason := mreason
        calls := (if dcalled then [CallKind.dcfAssumptions] else []) ++
                 (if mcalled then [CallKind.multAssumptions] else [])
        multiplesAttempted := true }

/-! ### Specification-side DCF formula

These definitions follow the wording of the specification (grow the
running cash flow period by period, discount each grown cash flow by
(1+Ke)^(1-based period index), anchor the terminal value to the final
grown cash flow); the refinement theorem for the calculation compares the
source embedding against them. -/

/-- The cash flow after i growth periods: base times the product of
(1 + rate) over the first i stage-1 rates. -/
def specCF (base : ℚ) (rates : List ℚ) (i : Nat) : ℚ :=
  base * ((rates.take i).map (fun r => 1 + r)).prod

/-- Sum of the discounted stage-1 cash flows, period index 1-based. -/
def specStage1Sum (ke base : ℚ) (rates : List ℚ) : ℚ :=
  ∑ i ∈ Finset.range rates.length, specCF base rates (i + 1) / (1 + ke) ^ (i + 1)

/-- Gordon-growth terminal value anchored to the final grown cash flow. -/
def specTerminalValue (ke g cfFinal : ℚ) : ℚ := cfFinal * (1 + g) / (ke - g)

/-- Fair value per share: stage-1 present values plus the discounted
terminal value, divided by shares outstanding. -/
def specFairValuePerShare (base ke g : ℚ) (rates : List ℚ) (n : Nat) (shares : ℚ) : ℚ :=
  (specStage1Sum ke base rates +
    specTerminalValue ke g (specCF base rates rates.length) / (1 + ke) ^ n) / shares

lemma specCF_nil (base : ℚ) (i : Nat) : specCF base [] i = base := by
  simp [specCF]

lemma specCF_zero (base : ℚ) (rates : List ℚ) : specCF base rates 0 = base := by
  simp [specCF]

lemma specCF_cons (base r : ℚ) (t : List ℚ) (j : Nat) :
    specCF base (r :: t) (j + 1) = specCF (base * (1 + r)) t j := by
  simp [specCF, List.take_succ_cons]
  ring

/-- The stage-1 loop of the source computes exactly the specification
sum of discounted grown cash flows (offset by the starting counter) and
the final grown cash flow. -/
lemma stage1Go_eq (ke : ℚ) (rs : List ℚ) : ∀ (cf : ℚ) (k : Nat),
    stage1Go ke cf k rs =
      (∑ i ∈ Finset.range rs.length, specCF cf rs (i + 1) / (1 + ke) ^ (k + i + 1),
       specCF cf rs rs.length) := by
  induction rs with
  | nil => intro cf k; simp [stage1Go, specCF]
  | cons r t ih =>
    intro cf k
    simp only [stage1Go]
    rw [ih (cf * (1 + r)) (k + 1)]
    refine Prod.ext ?_ ?_
    · show cf * (1 + r) / (1 + ke) ^ (k + 1) +
        (∑ i ∈ Finset.range t.length,
          specCF (cf * (1 + r)) t (i + 1) / (1 + ke) ^ (k + 1 + i + 1)) = _
      rw [List.length_cons, Finset.sum_range_succ']
      rw [specCF_cons cf r t 0, specCF_zero]
      rw [add_comm (cf * (1 + r) / (1 + ke) ^ (k + 1))]
      congr 1
      refine Finset.sum_congr rfl (fun i _ => ?_)
      rw [specCF_cons, show k + (i + 1) + 1 = k + 1 + i + 1 from by omega]
    · show specCF (cf * (1 + r)) t t.length = specCF cf (r :: t) (r :: t).length
      rw [List.length_cons, specCF_cons]

/-! ### Helper lemmas -/

/-- Evaluation rule for pyRound2 away from a tie. -/
lemma pyRound2_of_floor (x : ℚ) (f : ℤ) (hf : ⌊x * 100⌋ = f)
    (hlt : x * 100 - (f : ℚ) < 1/2) : pyRound2 x = (f : ℚ) / 100 := by
  simp only [pyRound2, roundHalfEven]
  rw [hf, if_pos hlt]

/-! ### Theorems for the claims -/

/-- Claim C6: the multiples calculation fails with InvalidMultiple for
every pe not greater than 0; otherwise it computes fve = pe times eps,
fails with NonPositiveResult for every non-positive fve, and on success
returns fve rounded to two decimals. -/
theorem multiples_value_spec (pe eps : ℚ) :
    (pe ≤ 0 → performMultiplesCalculation (Option.some pe) (Option.some eps) =
      Except.error (MultCalcError.invalidMultiple pe)) ∧
    (0 < pe → pe * eps ≤ 0 → performMultiplesCalculation (Option.some pe) (Option.some eps) =
      Except.error (MultCalcError.nonPositiveResult (pe * eps))) ∧
    (0 < pe → 0 < pe * eps → performMultiplesCalculation (Option.some pe) (Option.some eps) =
      Except.ok (pyRound2 (pe * eps))) := by
  refine ⟨fun h => ?_, fun h1 h2 => ?_, fun h1 h2 => ?_⟩
  · simp [performMultiplesCalculation, h]
  · have hp : ¬ pe ≤ 0 := not_le.mpr h1
    simp [performMultiplesCalculation, hp, h2]
  · have hp : ¬ pe ≤ 0 := not_le.mpr h1
    have hf : ¬ pe * eps ≤ 0 := not_le.mpr h2
    simp [performMultiplesCalculation, hp, hf]

/-- Witness for claim C6: value(pe=20, eps=3.42) = 68.40, and the
Scenario C rejection value(pe=10, eps=-1.50) with fve = -15.0. -/
theorem multiples_value_spec_witness :
    performMultiplesCalculation (Option.some 20) (Option.some (171/50)) =
      Except.ok (342/5) ∧
    performMultiplesCalculation (Option.some 10) (Option.some (-(3/2))) =
      Except.error (MultCalcError.nonPositiveResult (-15)) := by
  constructor
  · have h := (multiples_value_spec 20 (171/50)).2.2 (by norm_num) (by norm_num)
    rw [h]
    have hr : pyRound2 (20 * (171/50)) = ((6840 : ℤ) : ℚ) / 100 :=
      pyRound2_of_floor _ _ (by norm_num) (by norm_num)
    rw [hr]
    norm_num
  · have h := (multiples_value_spec 10 (-(3/2))).2.1 (by norm_num) (by norm_num)
    rw [h]
    norm_num

/-- Claim C4: the base cash-flow computation reads only the index-0 values
of NI, Capex, D&A and delta-NWC; it succeeds with
FCFE_0 = NI - (abs(Capex) - D&A) - NWC exactly when all four are non-null,
otherwise it fails with MissingInput naming exactly the null inputs and no
others. -/
theorem base_cash_flow_spec (input : FVEInput) (h : HistFin)
    (hh : input.hist = Option.some h) :
    (∀ n c d w, getMostRecent h.netIncome = Option.some n →
      getMostRecent h.capex = Option.some c →
      getMostRecent h.depAmort = Option.some d →
      getMostRecent h.deltaNWC = Option.some w →
      calculateBaseFcfeZero input = Except.ok (n - (|c| - d) - w)) ∧
    (missNames (getMostRecent h.netIncome) (getMostRecent h.capex)
        (getMostRecent h.depAmort) (getMostRecent h.deltaNWC) ≠ [] →
      calculateBaseFcfeZero input = Except.error (BaseCFError.missingInputs
        (missNames (getMostRecent h.netIncome) (getMostRecent h.capex)
          (getMostRecent h.depAmort) (getMostRecent h.deltaNWC)))) ∧
    (∀ name : String,
      name ∈ missNames (getMostRecent h.netIncome) (getMostRecent h.capex)
        (getMostRecent h.depAmort) (getMostRecent h.deltaNWC) ↔
      ((name = "NI" ∧ getMostRecent h.netIncome = Option.none) ∨
       (name = "Capex" ∧ getMostRecent h.capex = Option.none) ∨
       (name = "D&A" ∧ getMostRecent h.depAmort = Option.none) ∨
       (name = "NWC" ∧ getMostRecent h.deltaNWC = Option.none))) ∧
    (∀ (input2 : FVEInput) (h2 : HistFin), input2.hist = Option.some h2 →
      getMostRecent h2.netIncome = getMostRecent h.netIncome →
      getMostRecent h2.capex = getMostRecent h.capex →
      getMostRecent h2.depAmort = getMostRecent h.depAmort →
      getMostRecent h2.deltaNWC = getMostRecent h.deltaNWC →
      calculateBaseFcfeZero input2 = calculateBaseFcfeZero input) := by
  refine ⟨?_, ?_, ?_, ?_⟩
  · intro n c d w hn hc hd hw
    simp [calculateBaseFcfeZero, hh, hn, hc, hd, hw]
  · intro hmiss
    rcases hni : getMostRecent h.netIncome with _ | n <;>
    rcases hc : getMostRecent h.capex with _ | c <;>
    rcases hd : getMostRecent h.depAmort with _ | d <;>
    rcases hw : getMostRecent h.deltaNWC with _ | w <;>
      simp_all [calculateBaseFcfeZero, missNames]
  · intro name
    rcases hni : getMostRecent h.netIncome with _ | n <;>
    rcases hc : getMostRecent h.capex with _ | c <;>
    rcases hd : getMostRecent h.depAmort with _ | d <;>
    rcases hw : getMostRecent h.deltaNWC with _ | w <;>
      simp [missNames]
  · intro input2 h2 hh2 e1 e2 e3 e4
    simp only [calculateBaseFcfeZero, hh, hh2, e1, e2, e3, e4]

/-- Witness for claim C4: NI missing with the other three present yields a
failure naming only NI. -/
theorem base_cash_flow_spec_witness :
    calculateBaseFcfeZero
      { companyName := Option.none, ticker := Option.none,
        beta := Fact.num 1, sharesOutstanding := Fact.num 10,
        hist := Option.some ⟨[Option.none], [Option.some 5], [Option.some 2], [Option.some 1]⟩,
        trailingPE := Option.none, forwardPE := Option.none,
        trailingEps := Option.none, forwardEps := Option.none } =
      Except.error (BaseCFError.missingInputs ["NI"]) := by
  have h := (base_cash_flow_spec
    { companyName := Option.none, ticker := Option.none,
      beta := Fact.num 1, sharesOutstanding := Fact.num 10,
      hist := Option.some ⟨[Option.none], [Option.some 5], [Option.some 2], [Option.some 1]⟩,
      trailingPE := Option.none, forwardPE := Option.none,
      trailingEps := Option.none, forwardEps := Option.none }
    ⟨[Option.none], [Option.some 5], [Option.some 2], [Option.some 1]⟩ rfl).2.1
    (by decide)
  rw [h]
  decide

/-- Claim C9: whenever the configured minimum Ke-g spread exceeds 1e-9
(in particular the default 0.005), the DegenerateTerminalValue branch of
the DCF calculation is unreachable: every failure it returns is some other
error, because the earlier spread re-validation already rejects every
assumption set with Ke - g not exceeding the minimum spread. -/
theorem degenerate_terminal_unreachable (cfg : Config) (so : Fact)
    (base? kePct? gPct? : Option ℚ) (s1gPct : List ℚ) (e : DCFError)
    (hs : 1 / 1000000000 < cfg.minSpread)
    (he : performDCFCalculation cfg so base? kePct? gPct? s1gPct = Except.error e) :
    e.isDegenerate = false := by
  rcases base? with _ | base <;> rcases kePct? with _ | kePct <;> rcases gPct? with _ | gPct <;>
    simp only [performDCFCalculation] at he <;>
    repeat' split at he
  all_goals first
    | (exfalso; linarith)
    | (simp only [Except.error.injEq] at he; subst he; rfl)
    | (exact Except.noConfusion he)

/-- Witness for claim C9: with the default spread configuration a failing
DCF run (base cash flow absent) indeed reports a non-degenerate error. -/
theorem degenerate_terminal_unreachable_witness :
    DCFError.isDegenerate DCFError.baseMissingForDCF = false :=
  degenerate_terminal_unreachable ⟨1/25, 1/20, 5, MIN_KE_G_SPREAD_DEFAULT⟩ (Fact.num 10)
    Option.none Option.none Option.none [] DCFError.baseMissingForDCF
    (by norm_num [MIN_KE_G_SPREAD_DEFAULT]) rfl

/-- Claim C1: on validated inputs (stage-1 list of the configured length,
g below Ke minus the minimum spread, positive numeric shares, terminal
denominator above the guard), the DCF calculation returns exactly the
specification value: grow-then-discount per period, terminal value from
the final grown cash flow, total divided by shares, rejected when
negative, otherwise rounded to two decimals. -/
theorem dcf_calculation_follows_spec (cfg : Config) (so : Fact)
    (base kePct gPct : ℚ) (s1gPct : List ℚ) (soV : ℚ)
    (hlen : s1gPct.length = cfg.stage1Years)
    (hne : s1gPct ≠ [])
    (hspread : gPct / 100 < kePct / 100 - cfg.minSpread)
    (hdenom : 1 / 1000000000 < kePct / 100 - gPct / 100)
    (hso : so.toFloat = Option.some soV)
    (hpos : 0 < soV) :
    performDCFCalculation cfg so (Option.some base) (Option.some kePct)
        (Option.some gPct) s1gPct =
      if specFairValuePerShare base (kePct / 100) (gPct / 100)
          (s1gPct.map (fun g => g / 100)) cfg.stage1Years soV < 0 then
        Except.error (DCFError.negativeResult (specFairValuePerShare base (kePct / 100)
          (gPct / 100) (s1gPct.map (fun g => g / 100)) cfg.stage1Years soV))
      else
        Except.ok (pyRound2 (specFairValuePerShare base (kePct / 100) (gPct / 100)
          (s1gPct.map (fun g => g / 100)) cfg.stage1Years soV)) := by
  have hlen2 : (s1gPct.map (fun g => g / 100)).length = cfg.stage1Years := by
    simpa using hlen
  have hfv : ((stage1Go (kePct / 100) base 0 (s1gPct.map (fun g => g / 100))).1 +
      (stage1Go (kePct / 100) base 0 (s1gPct.map (fun g => g / 100))).2 * (1 + gPct / 100) /
        (kePct / 100 - gPct / 100) / (1 + kePct / 100) ^ cfg.stage1Years) / soV =
      specFairValuePerShare base (kePct / 100) (gPct / 100)
        (s1gPct.map (fun g => g / 100)) cfg.stage1Years soV := by
    rw [stage1Go_eq]
    simp [specFairValuePerShare, specStage1Sum, specTerminalValue, Nat.zero_add,
      div_div]
  simp only [performDCFCalculation, hso]
  rw [if_neg (by simpa using hne)]
  rw [if_neg (by simp [hlen2])]
  rw [if_neg (show ¬ gPct / 100 ≥ kePct / 100 - cfg.minSpread from not_le.mpr hspread)]
  rw [if_neg (not_le.mpr hpos)]
  rw [if_neg (not_le.mpr hdenom)]
  rw [hfv]

/-- Default-style configuration used by the concrete DCF witness:
stage-1 horizon of five years, minimum spread 0.005. -/
def cfgC1 : Config := ⟨1/25, 1/20, 5, MIN_KE_G_SPREAD_DEFAULT⟩

/-- Witness for claim C1: with baseFCFE0 = 100, Ke = 10, g = 2, growth
[5,5,5,5,5] and 10 shares the result is 144.62, and the specification
cash-flow path starts at 105 in year one. -/
theorem dcf_calculation_follows_spec_witness :
    performDCFCalculation cfgC1 (Fact.num 10) (Option.some 100) (Option.some 10)
        (Option.some 2) [5, 5, 5, 5, 5] = Except.ok (7231/50) ∧
    specCF 100 ([5, 5, 5, 5, 5].map (fun g => g / 100)) 1 = 105 := by
  constructor
  · have h := dcf_calculation_follows_spec cfgC1 (Fact.num 10) 100 10 2 [5, 5, 5, 5, 5] 10
      rfl (by simp) (by norm_num [cfgC1, MIN_KE_G_SPREAD_DEFAULT]) (by norm_num) rfl
      (by norm_num)
    rw [h]
    have hval : specFairValuePerShare 100 (10 / 100) (2 / 100)
        ([5, 5, 5, 5, 5].map (fun g => (g : ℚ) / 100)) cfgC1.stage1Years 10 =
        7453243875 / 51536320 := by
      norm_num [specFairValuePerShare, specStage1Sum, specTerminalValue, specCF, cfgC1,
        Finset.sum_range_succ, Finset.sum_range_zero, List.take_succ_cons, List.take_zero]
    rw [hval, if_neg (by norm_num)]
    have hr : pyRound2 (7453243875 / 51536320) = ((14462 : ℤ) : ℚ) / 100 :=
      pyRound2_of_floor _ _ (by norm_num) (by norm_num)
    rw [hr]
    norm_num
  · norm_num [specCF, List.take_succ_cons, List.take_zero]

/-- Configuration for the spread-boundary analysis: two stage-1 years and
a minimum spread of one percentage point. -/
def cfgC2 : Config := ⟨1/25, 1/20, 2, 1/100⟩

/-- A parsed DCF-assumption response with Ke = 10 and g = 9, exactly at
the boundary g = Ke minus the minimum spread of cfgC2. -/
def paC2 : List (String × JVal) :=
  [(STAGE_1_GROWTH_PCT, JVal.jlist [JVal.jnum 5, JVal.jnum 4]),
   (JUSTIFICATION_STAGE_1_GROWTH, JVal.jstr "j1" Option.none),
   (PERPETUAL_GROWTH_G_PCT, JVal.jnum 9),
   (JUSTIFICATION_PERPETUAL_GROWTH, JVal.jstr "j2" Option.none),
   (COST_OF_EQUITY_KE_PCT, JVal.jnum 10),
   (JUSTIFICATION_KE, JVal.jstr "j3" Option.none),
   (BETA_USED_IN_KE_CALC, JVal.jnum 1)]

/-- Counterexample to claim C2 as stated: with Ke = 10 and minSpreadPct = 1,
the value g = 9 does not exceed Ke - minSpreadPct, yet the validation
rejects the assumption set with the spread-violation failure, so the
acceptance condition is not g less-or-equal Ke - minSpreadPct. -/
theorem spread_validation_boundary_counterexample :
    cfgC2.minSpreadPct = 1 ∧
    ¬ ((9 : ℚ) > 10 - cfgC2.minSpreadPct) ∧
    validateDCFJson cfgC2 1 paC2 =
      Except.error (GenDCFError.spreadViolation 9 10 1) := by
  refine ⟨by norm_num [cfgC2, Config.minSpreadPct], by norm_num [cfgC2, Config.minSpreadPct], ?_⟩
  have l1 : paC2.lookup STAGE_1_GROWTH_PCT =
      Option.some (JVal.jlist [JVal.jnum 5, JVal.jnum 4]) := rfl
  have l2 : paC2.lookup PERPETUAL_GROWTH_G_PCT = Option.some (JVal.jnum 9) := rfl
  have l3 : paC2.lookup COST_OF_EQUITY_KE_PCT = Option.some (JVal.jnum 10) := rfl
  simp only [validateDCFJson, l1, l2, l3, Option.getD_some]
  rw [if_neg (by decide)]
  norm_num [cfgC2, Config.minSpreadPct, JVal.toFloat, JVal.isNumber]

/-- Claim C2 (amended): once a response has all required keys, a
well-shaped stage-1 list, numeric g and Ke and positive Ke, the validation
fails with SpreadViolation exactly when g is greater than or equal to
Ke - minSpreadPct (the boundary case is rejected), and consequently every
accepted assumption set satisfies Ke - g strictly greater than
minSpreadPct. -/
theorem spread_validation_amended (cfg : Config) (nb : ℚ) (pa : List (String × JVal))
    (l : List JVal) (gv kev : JVal) (gPct kePct : ℚ)
    (hkeys : ∀ k ∈ requiredDCFKeys, (pa.lookup k).isSome)
    (hs1 : pa.lookup STAGE_1_GROWTH_PCT = Option.some (JVal.jlist l))
    (hlen : l.length = cfg.stage1Years)
    (hnum : l.all JVal.isNumber)
    (hg : pa.lookup PERPETUAL_GROWTH_G_PCT = Option.some gv)
    (hgf : gv.toFloat = Option.some gPct)
    (hke : pa.lookup COST_OF_EQUITY_KE_PCT = Option.some kev)
    (hkef : kev.toFloat = Option.some kePct)
    (hkepos : 0 < kePct) :
    (validateDCFJson cfg nb pa =
        Except.error (GenDCFError.spreadViolation gPct kePct cfg.minSpreadPct) ↔
      gPct ≥ kePct - cfg.minSpreadPct) ∧
    (∀ a, validateDCFJson cfg nb pa = Except.ok a →
      kePct - gPct > cfg.minSpreadPct ∧ a.gPct = gPct ∧ a.kePct = kePct) := by
  have hmiss : requiredDCFKeys.filter (fun k => (pa.lookup k).isNone) = [] := by
    rw [List.filter_eq_nil_iff]
    intro k hk
    have hsome := hkeys k hk
    rcases hlk : pa.lookup k with _ | v
    · rw [hlk] at hsome; simp at hsome
    · simp [hlk]
  have hred : validateDCFJson cfg nb pa =
      (if gPct ≥ kePct - cfg.minSpreadPct then
        Except.error (GenDCFError.spreadViolation gPct kePct cfg.minSpreadPct)
      else Except.ok ⟨l.map (fun v => v.toFloat.getD 0), gPct, kePct, nb⟩) := by
    simp only [validateDCFJson, hs1, hg, hke, Option.getD_some]
    rw [if_neg (by simp [hmiss])]
    rw [if_neg (by simp [hlen])]
    rw [if_neg (by simp [hnum])]
    simp only [hgf, hkef]
    rw [if_neg (not_le.mpr hkepos)]
  constructor
  · rw [hred]
    by_cases hsp : gPct ≥ kePct - cfg.minSpreadPct
    · rw [if_pos hsp]
      exact ⟨fun _ => hsp, fun _ => rfl⟩
    · rw [if_neg hsp]
      constructor
      · intro hcontra; exact absurd hcontra (by simp)
      · intro hcontra; exact absurd hcontra hsp
  · intro a ha
    rw [hred] at ha
    by_cases hsp : gPct ≥ kePct - cfg.minSpreadPct
    · rw [if_pos hsp] at ha; exact absurd ha (by simp)
    · rw [if_neg hsp] at ha
      injection ha with hinj
      subst hinj
      exact ⟨by have := not_le.mp hsp; linarith, rfl, rfl⟩

/-- Witness for the amended claim C2, instantiated at the boundary
response paC2. -/
theorem spread_validation_amended_witness :
    validateDCFJson cfgC2 1 paC2 =
        Except.error (GenDCFError.spreadViolation 9 10 cfgC2.minSpreadPct) ↔
      (9 : ℚ) ≥ 10 - cfgC2.minSpreadPct :=
  (spread_validation_amended cfgC2 1 paC2 [JVal.jnum 5, JVal.jnum 4]
    (JVal.jnum 9) (JVal.jnum 10) 9 10
    (by decide) rfl rfl rfl rfl rfl rfl rfl (by norm_num)).1

/-- Inversion for a successful DCF-assumption validation: the accepted
stage-1 entry is a list of exactly the configured number of numerals, the
accepted values satisfy the strict spread inequality, and Ke is positive. -/
lemma validateDCFJson_ok_inv (cfg : Config) (nb : ℚ) (pa : List (String × JVal))
    (a : DCFAssumptions) (h : validateDCFJson cfg nb pa = Except.ok a) :
    (∃ l, pa.lookup STAGE_1_GROWTH_PCT = Option.some (JVal.jlist l) ∧
      l.length = cfg.stage1Years ∧ (∀ v ∈ l, ∃ q, v = JVal.jnum q) ∧
      a.s1gPct = l.map (fun v => v.toFloat.getD 0)) ∧
    a.gPct < a.kePct - cfg.minSpreadPct ∧ 0 < a.kePct := by
  simp only [validateDCFJson] at h
  repeat' split at h
  all_goals try exact Except.noConfusion h
  injection h with h2
  subst h2
  rename_i x0 l heq hlen hall og gPct hgf ok2 kePct hkef hkepos hsp
  refine ⟨⟨l, ?_, not_ne_iff.mp hlen, ?_, rfl⟩, not_le.mp hsp, not_le.mp hkepos⟩
  · rcases hpa : pa.lookup STAGE_1_GROWTH_PCT with _ | v
    · rw [hpa] at heq; simp at heq
    · rw [hpa] at heq; simp only [Option.getD_some] at heq; rw [heq]
  · intro v hv
    have hv2 := List.all_eq_true.mp (not_not.mp hall) v hv
    cases v <;> simp [JVal.isNumber] at hv2
    exact ⟨_, rfl⟩

/-- Inversion for a successful DCF-assumption generation: beta converted,
the response carried JSON, validation accepted it, and the
text-generation capability was called. -/
lemma generateDCF_ok_inv (cfg : Config) (beta : Fact) (base? : Option ℚ)
    (resp : LLMResult) (a : DCFAssumptions) (called : Bool)
    (h : generateDCFAssumptions cfg beta base? resp = (Except.ok a, called)) :
    ∃ nb pa, beta.toFloat = Option.some nb ∧ resp = LLMResult.json pa ∧
      validateDCFJson cfg nb pa = Except.ok a ∧ called = true := by
  rcases base? with _ | b
  · simp [generateDCFAssumptions, Prod.ext_iff] at h
  cases beta with
  | none => simp [generateDCFAssumptions, Prod.ext_iff] at h
  | num q =>
    rcases resp with e | _ | _ | pa <;>
      simp only [generateDCFAssumptions, Fact.toFloat, Prod.mk.injEq] at h <;>
      first
        | exact Except.noConfusion h.1
        | exact ⟨q, pa, rfl, rfl, h.1, h.2.symm⟩
  | str s oa =>
    rcases oa with _ | nb
    · simp [generateDCFAssumptions, Fact.toFloat, Prod.ext_iff] at h
    · rcases resp with e | _ | _ | pa <;>
        simp only [generateDCFAssumptions, Fact.toFloat, Prod.mk.injEq] at h <;>
        first
          | exact Except.noConfusion h.1
          | exact ⟨nb, pa, rfl, rfl, h.1, h.2.symm⟩

/-- Claim C7: every accepted DCF assumption set has a stage-1 list of
exactly stage1Years numeric entries, any other shape is rejected at
generation, and the DCF calculation independently re-validates the length,
failing on any mismatch. -/
theorem stage1_shape_invariant :
    (∀ (cfg : Config) (beta : Fact) (base : ℚ) (resp : LLMResult) (a : DCFAssumptions),
      (generateDCFAssumptions cfg beta (Option.some base) resp).1 = Except.ok a →
      a.s1gPct.length = cfg.stage1Years) ∧
    (∀ (cfg : Config) (nb : ℚ) (pa : List (String × JVal)) (a : DCFAssumptions),
      validateDCFJson cfg nb pa = Except.ok a →
      ∃ l, pa.lookup STAGE_1_GROWTH_PCT = Option.some (JVal.jlist l) ∧
        l.length = cfg.stage1Years ∧ ∀ v ∈ l, ∃ q, v = JVal.jnum q) ∧
    (∀ (cfg : Config) (so : Fact) (base kePct gPct : ℚ) (s1gPct : List ℚ),
      s1gPct.length ≠ cfg.stage1Years →
      ∃ e, performDCFCalculation cfg so (Option.some base) (Option.some kePct)
        (Option.some gPct) s1gPct = Except.error e) := by
  refine ⟨?_, ?_, ?_⟩
  · intro cfg beta base resp a h
    rcases hp : generateDCFAssumptions cfg beta (Option.some base) resp with ⟨res, called⟩
    rw [hp] at h
    simp only at h
    rw [h] at hp
    obtain ⟨nb, pa, _, _, hval, _⟩ := generateDCF_ok_inv cfg beta _ resp a called hp
    obtain ⟨⟨l, _, hlen, _, hmap⟩, _, _⟩ := validateDCFJson_ok_inv cfg nb pa a hval
    rw [hmap]
    simpa using hlen
  · intro cfg nb pa a h
    obtain ⟨⟨l, hl, hlen, hq, _⟩, _, _⟩ := validateDCFJson_ok_inv cfg nb pa a h
    exact ⟨l, hl, hlen, hq⟩
  · intro cfg so base kePct gPct s1gPct hne
    rcases s1gPct with _ | ⟨r, rs⟩
    · exact ⟨DCFError.missingEssential, by simp [performDCFCalculation]⟩
    · refine ⟨DCFError.lengthMismatch ((r :: rs).map (fun g => g / 100)).length
        cfg.stage1Years, ?_⟩
      simp only [performDCFCalculation]
      rw [if_neg (by simp)]
      rw [if_pos (by simpa using hne)]

/-- Witness for claim C7: a one-element growth list against a two-year
configuration is rejected by the DCF calculation. -/
theorem stage1_shape_invariant_witness :
    ∃ e, performDCFCalculation ⟨1/25, 1/20, 2, 1/100⟩ (Fact.num 10) (Option.some 100)
      (Option.some 10) (Option.some 2) [5] = Except.error e :=
  stage1_shape_invariant.2.2 ⟨1/25, 1/20, 2, 1/100⟩ (Fact.num 10) 100 10 2 [5] (by norm_num)

/-- Claim C3: whenever the DCF arm fails or is skipped, the orchestrator
attempts the multiples arm next; it reports Valuation Failed exactly when
both arms produced no value, and whenever the multiples arm produces a
value after a DCF failure, the run ends with the multiples method and that
value, never with a total failure. -/
theorem orchestrator_fallback_ordering (cfg : Config) (input : FVEInput)
    (dcfResp multResp : LLMResult) (methResp : MethResult) :
    ((dcfPhase cfg input dcfResp).1 = Option.none →
      (runValuation cfg input dcfResp multResp methResp).multiplesAttempted = true) ∧
    ((runValuation cfg input dcfResp multResp methResp).methodUsed =
        Option.some "Valuation Failed" ↔
      (dcfPhase cfg input dcfResp).1 = Option.none ∧
      (multPhase input multResp).1 = Option.none) ∧
    (∀ v, (dcfPhase cfg input dcfResp).1 = Option.none →
      (multPhase input multResp).1 = Option.some v →
      (runValuation cfg input dcfResp multResp methResp).methodUsed =
        Option.some "P/E Multiples-Based" ∧
      (runValuation cfg input dcfResp multResp methResp).calculatedFve = Option.some v) := by
  rcases hd : dcfPhase cfg input dcfResp with ⟨dv, dr, dc⟩
  rcases hm : multPhase input multResp with ⟨mv, mr, mc⟩
  rcases dv with _ | v1 <;> rcases mv with _ | v2 <;>
    simp [runValuation, hd, hm]

/-- Input for the concrete fallback run: beta absent, shares present,
trailing P/E and EPS available. -/
def inputC3 : FVEInput :=
  { companyName := Option.some "TestCo", ticker := Option.some "TST",
    beta := Fact.none, sharesOutstanding := Fact.num 1000000000,
    hist := Option.none, trailingPE := Option.some 10, forwardPE := Option.none,
    trailingEps := Option.some 2, forwardEps := Option.none }

/-- A well-formed multiples response selecting P/E 10 and EPS 2. -/
def multJsonOk : LLMResult :=
  LLMResult.json
    [(SELECTED_PE_VALUE, JVal.jnum 10), (SELECTED_PE_TYPE, JVal.jstr "Trailing" Option.none),
     (JUSTIFICATION_PE, JVal.jstr "j" Option.none), (SELECTED_EPS_VALUE, JVal.jnum 2),
     (SELECTED_EPS_TYPE, JVal.jstr "Trailing" Option.none),
     (JUSTIFICATION_EPS, JVal.jstr "j" Option.none)]

/-- Witness for claim C3: a run whose DCF preflight fails falls back to the
multiples arm and ends with the multiples method and its value. -/
theorem orchestrator_fallback_ordering_witness :
    (runValuation cfgC1 inputC3 LLMResult.noJson multJsonOk
      (MethResult.text "ok")).methodUsed = Option.some "P/E Multiples-Based" ∧
    (runValuation cfgC1 inputC3 LLMResult.noJson multJsonOk
      (MethResult.text "ok")).calculatedFve = Option.some 20 := by
  have hperf : performMultiplesCalculation (Option.some 10) (Option.some 2) =
      Except.ok 20 := by
    simp only [performMultiplesCalculation]
    rw [if_neg (by norm_num), if_neg (by norm_num)]
    have hr : pyRound2 ((10 : ℚ) * 2) = ((2000 : ℤ) : ℚ) / 100 :=
      pyRound2_of_floor _ _ (by norm_num) (by norm_num)
    rw [hr]
    norm_num
  have hgen : generateMultiplesAssumptions inputC3 multJsonOk = (Except.ok (10, 2), true) := by
    simp only [generateMultiplesAssumptions]
    rw [if_neg (by simp [inputC3])]
    rfl
  have hm : multPhase inputC3 multJsonOk = (Option.some 20, Option.none, true) := by
    simp only [multPhase, hgen, hperf]
  exact (orchestrator_fallback_ordering cfgC1 inputC3 LLMResult.noJson multJsonOk
    (MethResult.text "ok")).2.2 20 rfl (by rw [hm])

/-- Claim C5: whenever beta is null or non-numeric, or shares outstanding
is falsy, the DCF preflight fails without any DCF text-generation call,
the failure reason is recorded verbatim as the comma-joined list of the
missing or invalid facts ending with a period, and the multiples arm is
attempted next. -/
theorem preflight_short_circuit (cfg : Config) (input : FVEInput)
    (dcfResp multResp : LLMResult) (methResp : MethResult)
    (hbad : input.beta.toFloat = Option.none ∨ input.sharesOutstanding.truthy = false) :
    CallKind.dcfAssumptions ∉ (runValuation cfg input dcfResp multResp methResp).calls ∧
    (runValuation cfg input dcfResp multResp methResp).dcfFailureReason =
      Option.some (String.intercalate ", " (preflightParts input) ++ ".") ∧
    (runValuation cfg input dcfResp multResp methResp).multiplesAttempted = true := by
  have hparts : preflightParts input ≠ [] := by
    rcases hbad with h | h
    · rcases hbeta : input.beta with _ | q | ⟨s, oa⟩
      · simp [preflightParts, hbeta]
      · rw [hbeta] at h; simp [Fact.toFloat] at h
      · rw [hbeta] at h
        simp only [Fact.toFloat] at h
        subst h
        simp [preflightParts, hbeta, Fact.toFloat]
    · simp [preflightParts, h]
  have hd : dcfPhase cfg input dcfResp =
      (Option.none, Option.some (String.intercalate ", " (preflightParts input) ++ "."),
        false) := by
    simp only [dcfPhase]
    rw [if_pos hparts]
  rcases hm : multPhase input multResp with ⟨mv, mr, mc⟩
  rcases mv with _ | v <;> cases mc <;>
    simp [runValuation, hd, hm]

/-- Input for the concrete preflight run: beta absent, shares outstanding
present (1e9), multiples data available. -/
def inputC5 : FVEInput :=
  { companyName := Option.none, ticker := Option.some "TST",
    beta := Fact.none, sharesOutstanding := Fact.num 1000000000,
    hist := Option.none, trailingPE := Option.some 10, forwardPE := Option.none,
    trailingEps := Option.some 2, forwardEps := Option.none }

/-- Witness for claim C5: with beta absent and shares present the recorded
reason is exactly the string containing Beta, no DCF assumption call is
made, and the multiples arm is attempted. -/
theorem preflight_short_circuit_witness :
    CallKind.dcfAssumptions ∉ (runValuation cfgC1 inputC5 LLMResult.noJson LLMResult.noJson
      (MethResult.text "ok")).calls ∧
    (runValuation cfgC1 inputC5 LLMResult.noJson LLMResult.noJson
      (MethResult.text "ok")).dcfFailureReason = Option.some "Beta missing." ∧
    ("Beta".data.isPrefixOf "Beta missing.".data) = true ∧
    (runValuation cfgC1 inputC5 LLMResult.noJson LLMResult.noJson
      (MethResult.text "ok")).multiplesAttempted = true := by
  have h := preflight_short_circuit cfgC1 inputC5 LLMResult.noJson LLMResult.noJson
    (MethResult.text "ok") (Or.inl rfl)
  refine ⟨h.1, ?_, by decide, h.2.2⟩
  rw [h.2.1]
  decide

/-- Length positivity of the locally composed total-failure message. -/
lemma totalFailureText_length_pos (input : FVEInput) (dr mr : Option String) :
    0 < (totalFailureText input dr mr).length := by
  have h1 : 0 < ("VALUATION_METHODOLOGY:\nValuation for ").length := by decide
  rcases dr with _ | d <;> rcases mr with _ | m <;>
    simp only [totalFailureText, String.length_append] <;> omega

/-- Claim C8: on total failure the run returns a null fair value with
method Valuation Failed, makes no narrative text-generation call, and its
methodology text is the deterministic local composition of the retained
per-method failure reasons, which is always a populated string; the whole
run is a total function, so no exception escapes. -/
theorem total_failure_behavior (cfg : Config) (input : FVEInput)
    (dcfResp multResp : LLMResult) (methResp : MethResult)
    (hd : (dcfPhase cfg input dcfResp).1 = Option.none)
    (hm : (multPhase input multResp).1 = Option.none) :
    (runValuation cfg input dcfResp multResp methResp).calculatedFve = Option.none ∧
    (runValuation cfg input dcfResp multResp methResp).methodUsed =
      Option.some "Valuation Failed" ∧
    CallKind.methodology ∉ (runValuation cfg input dcfResp multResp methResp).calls ∧
    (runValuation cfg input dcfResp multResp methResp).methodologyText =
      totalFailureText input
        (runValuation cfg input dcfResp multResp methResp).dcfFailureReason
        (runValuation cfg input dcfResp multResp methResp).multiplesFailureReason ∧
    (runValuation cfg input dcfResp multResp methResp).methodologyText.length ≠ 0 := by
  rcases hdp : dcfPhase cfg input dcfResp with ⟨dv, dr, dc⟩
  rw [hdp] at hd
  simp only at hd
  subst hd
  rcases hmp : multPhase input multResp with ⟨mv, mr, mc⟩
  rw [hmp] at hm
  simp only at hm
  subst hm
  have hrun : runValuation cfg input dcfResp multResp methResp =
      { calculatedFve := Option.none, methodUsed := Option.some "Valuation Failed",
        methodologyText := totalFailureText input dr mr,
        dcfFailureReason := dr, multiplesFailureReason := mr,
        calls := (if dc then [CallKind.dcfAssumptions] else []) ++
                 (if mc then [CallKind.multAssumptions] else []),
        multiplesAttempted := true } := by
    simp [runValuation, hdp, hmp]
  rw [hrun]
  refine ⟨rfl, rfl, ?_, rfl, ?_⟩
  · cases dc <;> cases mc <;> simp
  · exact (totalFailureText_length_pos input dr mr).ne'

/-- Input for the concrete total-failure run: beta and shares absent, no
multiples data at all. -/
def inputC8 : FVEInput :=
  { companyName := Option.some "TestCo", ticker := Option.some "TST",
    beta := Fact.none, sharesOutstanding := Fact.none,
    hist := Option.none, trailingPE := Option.none, forwardPE := Option.none,
    trailingEps := Option.none, forwardEps := Option.none }

/-- Witness for claim C8: a run in which both arms fail returns a null
value, the Failed method marker, no narrative call, and a populated
message. -/
theorem total_failure_behavior_witness :
    (runValuation cfgC1 inputC8 LLMResult.noJson LLMResult.noJson
      (MethResult.text "x")).calculatedFve = Option.none ∧
    (runValuation cfgC1 inputC8 LLMResult.noJson LLMResult.noJson
      (MethResult.text "x")).methodUsed = Option.some "Valuation Failed" ∧
    CallKind.methodology ∉ (runValuation cfgC1 inputC8 LLMResult.noJson LLMResult.noJson
      (MethResult.text "x")).calls ∧
    (runValuation cfgC1 inputC8 LLMResult.noJson LLMResult.noJson
      (MethResult.text "x")).methodologyText.length ≠ 0 := by
  have h := total_failure_behavior cfgC1 inputC8 LLMResult.noJson LLMResult.noJson
    (MethResult.text "x") rfl rfl
  exact ⟨h.1, h.2.1, h.2.2.1, h.2.2.2.2⟩

/-- Claim C10: a truthy but non-numeric shares-outstanding value passes the
preflight check (which tests only falsiness); when beta is numeric, the
base cash flow computes, and the assumption-generation call succeeds with
a nonempty horizon, the DCF path proceeds including the external
assumption-generation call and fails only inside the DCF calculation with
the shares-invalid reason string, after which the multiples fallback is
attempted. -/
theorem truthy_nonnumeric_shares_dcf_path (cfg : Config) (input : FVEInput)
    (dcfResp multResp : LLMResult) (methResp : MethResult)
    (a : DCFAssumptions) (base nb : ℚ)
    (htr : input.sharesOutstanding.truthy = true)
    (hnf : input.sharesOutstanding.toFloat = Option.none)
    (hbf : input.beta.toFloat = Option.some nb)
    (hbase : calculateBaseFcfeZero input = Except.ok base)
    (hgen : generateDCFAssumptions cfg input.beta (Option.some base) dcfResp =
      (Except.ok a, true))
    (hyears : cfg.stage1Years ≠ 0) :
    CallKind.dcfAssumptions ∈ (runValuation cfg input dcfResp multResp methResp).calls ∧
    (runValuation cfg input dcfResp multResp methResp).dcfFailureReason = Option.some
      ("Shares outstanding (\x27" ++ input.sharesOutstanding.display ++
        "\x27) is invalid or not positive: " ++ input.sharesOutstanding.floatErrMsg) ∧
    (runValuation cfg input dcfResp multResp methResp).multiplesAttempted = true := by
  have hparts : preflightParts input = [] := by
    rcases hbeta : input.beta with _ | q | ⟨s, oa⟩
    · rw [hbeta] at hbf; simp [Fact.toFloat] at hbf
    · simp [preflightParts, hbeta, htr, Fact.toFloat]
    · rw [hbeta] at hbf
      simp only [Fact.toFloat] at hbf
      subst hbf
      simp [preflightParts, hbeta, htr, Fact.toFloat]
  obtain ⟨nb2, pa, hbf2, hjson, hval, _⟩ :=
    generateDCF_ok_inv cfg input.beta (Option.some base) dcfResp a true hgen
  obtain ⟨⟨l, _, hlen, _, hmap⟩, hsp, hke⟩ := validateDCFJson_ok_inv cfg nb2 pa a hval
  have hlenA : a.s1gPct.length = cfg.stage1Years := by
    rw [hmap]; simpa using hlen
  have hneA : a.s1gPct ≠ [] := by
    intro hcontra
    rw [hcontra] at hlenA
    simp at hlenA
    exact hyears hlenA.symm
  have hspD : ¬ a.gPct / 100 ≥ a.kePct / 100 - cfg.minSpread := by
    rw [not_le]
    have hsp2 := hsp
    unfold Config.minSpreadPct at hsp2
    linarith
  have hperf : performDCFCalculation cfg input.sharesOutstanding (Option.some base)
      (Option.some a.kePct) (Option.some a.gPct) a.s1gPct =
      Except.error (DCFError.invalidShares input.sharesOutstanding.display
        input.sharesOutstanding.floatErrMsg) := by
    simp only [performDCFCalculation, hnf]
    rw [if_neg (by simpa using hneA)]
    rw [if_neg (by simp [hlenA])]
    rw [if_neg hspD]
  have hd : dcfPhase cfg input dcfResp = (Option.none,
      Option.some (DCFError.invalidShares input.sharesOutstanding.display
        input.sharesOutstanding.floatErrMsg).msg, true) := by
    simp only [dcfPhase]
    rw [if_neg (by simp [hparts])]
    simp only [hbase, hgen, hperf]
  rcases hmp : multPhase input multResp with ⟨mv, mr, mc⟩
  rcases mv with _ | v <;> cases mc <;>
    simp [runValuation, hd, hmp, DCFError.msg]

/-- One-year configuration for the concrete non-numeric-shares run. -/
def cfgC10 : Config := ⟨1/25, 1/20, 1, 1/100⟩

/-- Input with the truthy but non-numeric shares value abc. -/
def inputC10 : FVEInput :=
  { companyName := Option.some "TestCo", ticker := Option.some "TST",
    beta := Fact.num 1, sharesOutstanding := Fact.str "abc" Option.none,
    hist := Option.some ⟨[Option.some 10], [Option.some 3], [Option.some 2], [Option.some 1]⟩,
    trailingPE := Option.some 10, forwardPE := Option.none,
    trailingEps := Option.some 2, forwardEps := Option.none }

/-- A well-formed one-year DCF assumption response. -/
def dcfJsonC10 : LLMResult :=
  LLMResult.json
    [(STAGE_1_GROWTH_PCT, JVal.jlist [JVal.jnum 5]),
     (JUSTIFICATION_STAGE_1_GROWTH, JVal.jstr "j" Option.none),
     (PERPETUAL_GROWTH_G_PCT, JVal.jnum 2),
     (JUSTIFICATION_PERPETUAL_GROWTH, JVal.jstr "j" Option.none),
     (COST_OF_EQUITY_KE_PCT, JVal.jnum 10),
     (JUSTIFICATION_KE, JVal.jstr "j" Option.none),
     (BETA_USED_IN_KE_CALC, JVal.jnum 1)]

/-- Witness for claim C10: with shares outstanding abc the run makes the
DCF assumption call, records the exact shares-invalid reason, and attempts
the multiples fallback. -/
theorem truthy_nonnumeric_shares_dcf_path_witness :
    CallKind.dcfAssumptions ∈ (runValuation cfgC10 inputC10 dcfJsonC10 LLMResult.noJson
      (MethResult.text "x")).calls ∧
    (runValuation cfgC10 inputC10 dcfJsonC10 LLMResult.noJson
      (MethResult.text "x")).dcfFailureReason = Option.some
      "Shares outstanding (\x27abc\x27) is invalid or not positive: could not convert string to float: \x27abc\x27" ∧
    (runValuation cfgC10 inputC10 dcfJsonC10 LLMResult.noJson
      (MethResult.text "x")).multiplesAttempted = true := by
  have hbase0 : calculateBaseFcfeZero inputC10 = Except.ok (10 - (|(3 : ℚ)| - 2) - 1) := rfl
  have hbase : calculateBaseFcfeZero inputC10 = Except.ok 8 := by
    rw [hbase0]
    norm_num
  have hval : validateDCFJson cfgC10 1
      [(STAGE_1_GROWTH_PCT, JVal.jlist [JVal.jnum 5]),
       (JUSTIFICATION_STAGE_1_GROWTH, JVal.jstr "j" Option.none),
       (PERPETUAL_GROWTH_G_PCT, JVal.jnum 2),
       (JUSTIFICATION_PERPETUAL_GROWTH, JVal.jstr "j" Option.none),
       (COST_OF_EQUITY_KE_PCT, JVal.jnum 10),
       (JUSTIFICATION_KE, JVal.jstr "j" Option.none),
       (BETA_USED_IN_KE_CALC, JVal.jnum 1)] =
      Except.ok ⟨[5], 2, 10, 1⟩ := by
    simp only [validateDCFJson]
    rw [if_neg (by decide)]
    rw [show (List.lookup STAGE_1_GROWTH_PCT
      [(STAGE_1_GROWTH_PCT, JVal.jlist [JVal.jnum 5]),
       (JUSTIFICATION_STAGE_1_GROWTH, JVal.jstr "j" Option.none),
       (PERPETUAL_GROWTH_G_PCT, JVal.jnum 2),
       (JUSTIFICATION_PERPETUAL_GROWTH, JVal.jstr "j" Option.none),
       (COST_OF_EQUITY_KE_PCT, JVal.jnum 10),
       (JUSTIFICATION_KE, JVal.jstr "j" Option.none),
       (BETA_USED_IN_KE_CALC, JVal.jnum 1)]) = Option.some (JVal.jlist [JVal.jnum 5])
      from rfl]
    rw [show (List.lookup PERPETUAL_GROWTH_G_PCT
      [(STAGE_1_GROWTH_PCT, JVal.jlist [JVal.jnum 5]),
       (JUSTIFICATION_STAGE_1_GROWTH, JVal.jstr "j" Option.none),
       (PERPETUAL_GROWTH_G_PCT, JVal.jnum 2),
       (JUSTIFICATION_PERPETUAL_GROWTH, JVal.jstr "j" Option.none),
       (COST_OF_EQUITY_KE_PCT, JVal.jnum 10),
       (JUSTIFICATION_KE, JVal.jstr "j" Option.none),
       (BETA_USED_IN_KE_CALC, JVal.jnum 1)]) = Option.some (JVal.jnum 2) from rfl]
    rw [show (List.lookup COST_OF_EQUITY_KE_PCT
      [(STAGE_1_GROWTH_PCT, JVal.jlist [JVal.jnum 5]),
       (JUSTIFICATION_STAGE_1_GROWTH, JVal.jstr "j" Option.none),
       (PERPETUAL_GROWTH_G_PCT, JVal.jnum 2),
       (JUSTIFICATION_PERPETUAL_GROWTH, JVal.jstr "j" Option.none),
       (COST_OF_EQUITY_KE_PCT, JVal.jnum 10),
       (JUSTIFICATION_KE, JVal.jstr "j" Option.none),
       (BETA_USED_IN_KE_CALC, JVal.jnum 1)]) = Option.some (JVal.jnum 10) from rfl]
    simp only [Option.getD_some, JVal.toFloat]
    rw [if_neg (by decide)]
    rw [if_neg (by decide)]
    rw [if_neg (by norm_num)]
    rw [if_neg (by norm_num [cfgC10, Config.minSpreadPct])]
    rfl
  have hgen : generateDCFAssumptions cfgC10 inputC10.beta (Option.some 8) dcfJsonC10 =
      (Except.ok ⟨[5], 2, 10, 1⟩, true) := by
    show generateDCFAssumptions cfgC10 (Fact.num 1) (Option.some 8) dcfJsonC10 = _
    simp only [generateDCFAssumptions, Fact.toFloat, dcfJsonC10]
    rw [hval]
  have h := truthy_nonnumeric_shares_dcf_path cfgC10 inputC10 dcfJsonC10 LLMResult.noJson
    (MethResult.text "x") ⟨[5], 2, 10, 1⟩ 8 1 rfl rfl rfl hbase hgen (by decide)
  refine ⟨h.1, ?_, h.2.2⟩
  rw [h.2.1]
  decide

end FVE
